import Mathlib

/-!
Verification of the plugin slot manager (`PluginMgr`), the REST helper
conversions (`RestApi`), and the boot `InitState` of the esp-rgb-led-matrix
firmware, as a shallow embedding.

The embedding follows the C++ sources:
* `PluginMgr.cpp` — registry, install/uninstall, uid generation, load/save.
* `RestApi.cpp` — `toUInt8` / `toUInt16` helpers.
* `StateMachine/InitState.cpp` — `InitState::process`.

Collaborators that are not part of the given sources (the `DisplayMgr`
slot table, the `Settings` persistence store, the `ButtonDrv` mode-select
input) are modelled from the specification, as marked on each definition.
-/

set_option autoImplicit false

namespace PixelIt

/-- A plugin instance (`IPluginMaintenance`).  The field `pid` models heap
identity: each construction yields a fresh `pid`, so that pointer equality
and pointer-based list search are exact in the model. -/
structure PluginInst where
  pid : Nat
  name : String
  uid : Nat
deriving DecidableEq

/-- A registry entry (`PluginRegEntry`): the plugin type name.  The factory
(`createFunc`) is the canonical one — it constructs an instance carrying the
entry's name and the requested uid. -/
structure RegEntry where
  name : String
deriving DecidableEq

/-- The combined observable state: the `PluginMgr` registry and active plugin
list, the `DisplayMgr` slot table, the set of web-interface registrations
(by `pid`), the set of enabled plugins (by `pid`), and the allocation
counter backing `pid` freshness. -/
structure MgrState where
  registry : List RegEntry
  plugins : List PluginInst
  slots : List (Option PluginInst)
  webIfs : List Nat
  enabledPids : List Nat
  nextPid : Nat
deriving DecidableEq

namespace DisplayMgr

/-- Modelled from the spec: `DisplayMgr::installPlugin(instance)` — auto
placement puts the instance into the first free slot (lowest index) and
returns its slot id; with no free slot it fails (`SLOT_ID_INVALID`,
here `none`). -/
def installAuto : List (Option PluginInst) → PluginInst → Option (Nat × List (Option PluginInst))
  | [], _ => none
  | none :: rest, p => some (0, some p :: rest)
  | some q :: rest, p =>
      match installAuto rest p with
      | none => none
      | some (i, l) => some (i + 1, some q :: l)

/-- Modelled from the spec: `DisplayMgr::installPlugin(instance, slotId)` —
explicit placement fails if the slot is out of range or already occupied. -/
def installAt (slots : List (Option PluginInst)) (p : PluginInst) (slotId : Nat) :
    Option (List (Option PluginInst)) :=
  match slots.get? slotId with
  | some none => some (slots.set slotId (some p))
  | _ => none

/-- Modelled from the spec: `DisplayMgr::uninstallPlugin(instance)` — releases
the slot occupied by the instance and reports success; refuses (reports
failure, no change) when the instance occupies no slot. -/
def uninstallPlugin : List (Option PluginInst) → PluginInst → Bool × List (Option PluginInst)
  | [], _ => (false, [])
  | some q :: rest, p =>
      if q = p then (true, none :: rest)
      else
        let r := uninstallPlugin rest p
        (r.1, some q :: r.2)
  | none :: rest, p =>
      let r := uninstallPlugin rest p
      (r.1, none :: r.2)

/-- Modelled from the spec: `DisplayMgr::getPluginInSlot(slotId)`. -/
def getPluginInSlot (slots : List (Option PluginInst)) (slotId : Nat) : Option PluginInst :=
  match slots.get? slotId with
  | some o => o
  | none => none

end DisplayMgr

namespace PluginMgr

/-- `PluginMgr::registerPlugin`.  `allocOk` models whether
`new PluginRegEntry()` succeeds, `appendOk` whether `m_registry.append`
succeeds; the returned `Bool` is the reported (logged) outcome.  Note the
source performs no duplicate-name check: on success it always appends. -/
def registerPlugin (allocOk appendOk : Bool) (nm : String) (st : MgrState) : Bool × MgrState :=
  if allocOk then
    if appendOk then
      (true, { st with registry := st.registry ++ [⟨nm⟩] })
    else
      (false, st)
  else
    (false, st)

/-- `PluginMgr::findFirst` — the registry cursor is modelled by an index;
`findFirst` selects the first element and yields its name. -/
def findFirst (st : MgrState) : Option String :=
  st.registry.head?.map RegEntry.name

/-- `PluginMgr::findNext` with the cursor at index `cursor`. -/
def findNext (st : MgrState) (cursor : Nat) : Option String :=
  (st.registry.get? (cursor + 1)).map RegEntry.name

/-- The complete registry iteration produced by `findFirst`/`findNext`:
names in registration order. -/
def iterNames (st : MgrState) : List String :=
  st.registry.map RegEntry.name

/-- `PluginMgr::getRestApiBaseUri` — fixed prefix plus the uid. -/
def getRestApiBaseUri (uid : Nat) : String :=
  "/rest/api/v1" ++ "/display" ++ "/uid/" ++ toString uid

/-- `PluginMgr::installToAutoSlot`: place via the rendering collaborator,
then append to the active list (`appendOk` models allocation success of
`m_plugins.append`); if the append fails, the slot is released again. -/
def installToAutoSlot (appendOk : Bool) (p : PluginInst) (st : MgrState) : Bool × MgrState :=
  match DisplayMgr.installAuto st.slots p with
  | none => (false, st)
  | some (_, slots1) =>
      if appendOk then
        (true, { st with slots := slots1, plugins := st.plugins ++ [p],
                         webIfs := st.webIfs ++ [p.pid] })
      else
        (false, { st with slots := (DisplayMgr.uninstallPlugin slots1 p).2 })

/-- `PluginMgr::installToSlot`: like `installToAutoSlot` but with an explicit
slot id. -/
def installToSlot (appendOk : Bool) (p : PluginInst) (slotId : Nat) (st : MgrState) :
    Bool × MgrState :=
  match DisplayMgr.installAt st.slots p slotId with
  | none => (false, st)
  | some slots1 =>
      if appendOk then
        (true, { st with slots := slots1, plugins := st.plugins ++ [p],
                         webIfs := st.webIfs ++ [p.pid] })
      else
        (false, { st with slots := (DisplayMgr.uninstallPlugin slots1 p).2 })

/-- `PluginMgr::install(name, uid, slotId)` (the private overload, used by
`load()` to install with a recorded uid): look the name up in the registry;
on a hit construct the instance (advancing the allocation counter) and place
it; a constructed instance whose placement fails is destroyed (`delete`) and
`nullptr` (`none`) is returned.  `slotId = none` models
`DisplayMgr::SLOT_ID_INVALID`, i.e. auto placement. -/
def installWithUid (appendOk : Bool) (nm : String) (uid : Nat) (slotId : Option Nat)
    (st : MgrState) : Option PluginInst × MgrState :=
  match st.registry.find? (fun e => e.name == nm) with
  | none => (none, st)
  | some entry =>
      let p : PluginInst := ⟨st.nextPid, entry.name, uid⟩
      let st1 : MgrState := { st with nextPid := st.nextPid + 1 }
      match slotId with
      | none =>
          let r := installToAutoSlot appendOk p st1
          if r.1 then (some p, r.2) else (none, r.2)
      | some s =>
          let r := installToSlot appendOk p s st1
          if r.1 then (some p, r.2) else (none, r.2)

/-- `PluginMgr::generateUID`: draw 16-bit values (`random(UINT16_MAX)`, i.e.
values in `[0, 65534]`, modelled as `r % 65535` over a stream of draws) until
the draw collides with no currently installed plugin's uid.  The stream plays
the role of fuel: an empty stream models a run that has not yet produced a
fresh value. -/
def generateUID : List Nat → List PluginInst → Option Nat
  | [], _ => none
  | r :: rest, plugins =>
      let uid := r % 65535
      if plugins.any (fun p => p.uid == uid) then generateUID rest plugins
      else some uid

/-- `PluginMgr::install(name, slotId)` (the public overload): generate a
fresh uid, then install with it. -/
def install (rands : List Nat) (appendOk : Bool) (nm : String) (slotId : Option Nat)
    (st : MgrState) : Option PluginInst × MgrState :=
  match generateUID rands st.plugins with
  | none => (none, st)
  | some uid => installWithUid appendOk nm uid slotId st

/-- `PluginMgr::uninstall`: fail on `nullptr` or when the instance is not in
the active list; otherwise ask the rendering collaborator to release the
slot, and only on its success unregister the web interface and remove the
instance from the active list. -/
def uninstall (plugin : Option PluginInst) (st : MgrState) : Bool × MgrState :=
  match plugin with
  | none => (false, st)
  | some p =>
      if st.plugins.contains p then
        let r := DisplayMgr.uninstallPlugin st.slots p
        if r.1 then
          (true, { st with slots := r.2, plugins := st.plugins.erase p,
                           webIfs := st.webIfs.erase p.pid })
        else
          (false, st)
      else
        (false, st)

/-- `plugin->enable()` — record the instance as enabled. -/
def enablePlugin (p : PluginInst) (st : MgrState) : MgrState :=
  { st with enabledPids := st.enabledPids ++ [p.pid] }

end PluginMgr

/-- One persisted slot entry of the installation document:
`{name, uid}`; an empty name denotes an unoccupied slot. -/
structure SlotEntry where
  name : String
  uid : Nat
deriving DecidableEq

/-- An event on the persistence store (`Settings`): an `open` attempt with
its outcome, or a `close`. -/
inductive StoreEv where
  | opened (ok : Bool)
  | closed
deriving DecidableEq

/-- Modelled from the spec: the persistence store holds one encoded
slot-assignment document; `none` models a stored value that fails JSON
deserialization. -/
structure FullState where
  mgr : MgrState
  store : Option (List SlotEntry)
deriving DecidableEq

namespace PluginMgr

/-- The entry loop of `PluginMgr::load()`, verbatim from the source: for each
entry, a non-empty name is installed at the running slot index (failures are
skipped with a warning, success is followed by `enable()`); then the index is
incremented and — as written in the source — the loop breaks when
`slotId <= MAX_SLOTS` holds after the increment. -/
def loadLoop (maxSlots : Nat) (appendOk : Bool) :
    List SlotEntry → Nat → MgrState → MgrState
  | [], _, st => st
  | e :: rest, slotId, st =>
      let st1 :=
        if e.name = "" then st
        else
          match installWithUid appendOk e.name e.uid (some slotId) st with
          | (none, st2) => st2
          | (some p, st2) => enablePlugin p st2
      if slotId + 1 ≤ maxSlots then st1
      else loadLoop maxSlots appendOk rest (slotId + 1) st1

/-- `PluginMgr::load()`: open the store (read-only); on success read and
parse the stored document, close the store (before the parse-error check),
and on a successful parse run the entry loop. -/
def load (maxSlots : Nat) (openOk appendOk : Bool) (full : FullState) :
    FullState × List StoreEv :=
  if openOk then
    match full.store with
    | none => (full, [StoreEv.opened true, StoreEv.closed])
    | some entries =>
        ({ full with mgr := loadLoop maxSlots appendOk entries 0 full.mgr },
         [StoreEv.opened true, StoreEv.closed])
  else
    (full, [StoreEv.opened false])

/-- The document built by `PluginMgr::save()`: one entry per slot index
`0 .. MAX_SLOTS - 1`; an occupied slot contributes its plugin's name and uid,
an empty slot contributes `("", 0)`. -/
def saveDoc (maxSlots : Nat) (st : MgrState) : List SlotEntry :=
  (List.range maxSlots).map fun slotId =>
    match DisplayMgr.getPluginInSlot st.slots slotId with
    | none => ⟨"", 0⟩
    | some p => ⟨p.name, p.uid⟩

/-- `PluginMgr::save()`: build the document from the slot table, open the
store; on success write the serialized document and close the store. -/
def save (maxSlots : Nat) (openOk : Bool) (full : FullState) :
    FullState × List StoreEv :=
  if openOk then
    ({ full with store := some (saveDoc maxSlots full.mgr) },
     [StoreEv.opened true, StoreEv.closed])
  else
    (full, [StoreEv.opened false])

/-- One public-install request: the random stream feeding `generateUID`, the
active-list allocation outcome, the plugin name and the requested slot. -/
structure InstallReq where
  rands : List Nat
  appendOk : Bool
  name : String
  slotId : Option Nat
deriving DecidableEq

/-- A sequence of public installs (no intervening uninstalls). -/
def runInstalls : List InstallReq → MgrState → MgrState
  | [], st => st
  | r :: rest, st => runInstalls rest (install r.rands r.appendOk r.name r.slotId st).2

end PluginMgr

namespace RestApi

/-- `RestApi.cpp`'s static `toUInt8`, parametrized by `tmp = str.toInt()`:
the success flag is initialized `false` and never assigned afterwards; the
output parameter is assigned `static_cast<uint8_t>(tmp)` whenever
`0 <= tmp || tmp <= UINT8_MAX` holds (`none` models the out parameter left
unassigned). -/
def toUInt8 (tmp : Int) : Bool × Option Nat :=
  let success := false
  let value : Option Nat :=
    if 0 ≤ tmp ∨ tmp ≤ 255 then some ((tmp % 256).toNat) else none
  (success, value)

/-- `RestApi.cpp`'s static `toUInt16`, parametrized by `tmp = str.toInt()`:
same shape as `toUInt8` with the `UINT16_MAX` bound. -/
def toUInt16 (tmp : Int) : Bool × Option Nat :=
  let success := false
  let value : Option Nat :=
    if 0 ≤ tmp ∨ tmp ≤ 65535 then some ((tmp % 65536).toNat) else none
  (success, value)

end RestApi

/-- The two successor states `InitState::process` can request. -/
inductive SysState where
  | accessPointSetup
  | connecting
deriving DecidableEq

/-- Modelled from the spec: the mode-select input collaborator (`ButtonDrv`)
exposes whether a fresh reading is available (`isUpdated`) and whether the
configure-mode signal is asserted (`isPressed`, i.e.
`getState() == STATE_PRESSED`). -/
structure ButtonInput where
  isUpdated : Bool
  isPressed : Bool
deriving DecidableEq

namespace InitState

/-- `InitState::process`: while no fresh button reading is available, request
no transition; once one is available, request AccessPoint setup when the
button is pressed and Connecting otherwise.  The result is the transition
requested via `sm.setState`. -/
def process (btn : ButtonInput) : Option SysState :=
  if btn.isUpdated then
    if btn.isPressed then some SysState.accessPointSetup
    else some SysState.connecting
  else
    none

end InitState

/-- Pid freshness: every tracked or placed instance has a pid below the
allocation counter, so a newly constructed instance coincides with no
existing one.  This holds in every reachable state. -/
def pidFresh (st : MgrState) : Bool :=
  st.plugins.all (fun p => p.pid < st.nextPid) &&
  st.slots.all (fun o =>
    match o with
    | none => true
    | some p => p.pid < st.nextPid)

/-- Uid uniqueness of an active list: pairwise distinct uids. -/
def UidsOk (plugins : List PluginInst) : Prop :=
  plugins.Pairwise (fun p q => p.uid ≠ q.uid)

/-- Concrete instances used by the evaluation theorems below. -/
def clockInst : PluginInst := ⟨0, "Clock", 1⟩

/-- A second concrete instance. -/
def weatherInst : PluginInst := ⟨1, "Weather", 2⟩

/-- A fresh state with an empty 4-entry slot table and `Clock`, `Weather`
registered. -/
def freshSt4 : MgrState :=
  ⟨[⟨"Clock"⟩, ⟨"Weather"⟩], [], [none, none, none, none], [], [], 0⟩

/-- A state whose slots 0 and 1 hold `Clock` (uid 1) and `Weather` (uid 2). -/
def savedSt4 : MgrState :=
  ⟨[⟨"Clock"⟩, ⟨"Weather"⟩], [clockInst, weatherInst],
   [some clockInst, some weatherInst, none, none], [0, 1], [], 2⟩

/-- A well-formed persisted document occupying slots 0 and 1. -/
def doc4 : List SlotEntry := [⟨"Clock", 1⟩, ⟨"Weather", 2⟩, ⟨"", 0⟩, ⟨"", 0⟩]

/-- The registry state holding a single entry named `A`. -/
def stSingleA : MgrState := ⟨[⟨"A"⟩], [], [], [], [], 0⟩

/-- A state tracking `clockInst` in the active list while no slot holds it,
so the rendering collaborator refuses the release. -/
def stRefusing : MgrState := ⟨[], [clockInst], [none], [], [], 1⟩

/-- A state tracking `clockInst` in the active list with slot 0 holding it,
so the rendering collaborator consents to the release. -/
def stConsenting : MgrState := ⟨[], [clockInst], [some clockInst], [0], [], 1⟩

/-- An occupant of a `pidFresh` state's slot table has a pid below the
allocation counter. -/
theorem pidFresh_slot_lt {st : MgrState} (h : pidFresh st = true) {q : PluginInst}
    (hm : some q ∈ st.slots) : q.pid < st.nextPid := by
  unfold pidFresh at h
  rw [Bool.and_eq_true] at h
  have h2 := h.2
  rw [List.all_eq_true] at h2
  have := h2 _ hm
  simpa using this

/-- Releasing a freshly auto-placed instance restores the slot table: the
rollback in `installToAutoSlot` is exact. -/
theorem installAuto_rollback {slots : List (Option PluginInst)} {p : PluginInst} :
    ∀ {i : Nat} {slots1 : List (Option PluginInst)},
      DisplayMgr.installAuto slots p = some (i, slots1) →
      some p ∉ slots →
      DisplayMgr.uninstallPlugin slots1 p = (true, slots) := by
  induction slots with
  | nil =>
      intro i slots1 h _
      simp [DisplayMgr.installAuto] at h
  | cons o rest ih =>
      intro i slots1 h hnm
      match o with
      | none =>
          simp [DisplayMgr.installAuto] at h
          rw [← h.2]
          simp [DisplayMgr.uninstallPlugin]
      | some q =>
          have hq : ¬(q = p) := by
            intro hqe
            exact hnm (by simp [hqe])
          have hrest : some p ∉ rest := fun hm => hnm (List.mem_cons_of_mem _ hm)
          rw [DisplayMgr.installAuto] at h
          cases hrec : DisplayMgr.installAuto rest p with
          | none => rw [hrec] at h; simp at h
          | some pr =>
              obtain ⟨i0, l⟩ := pr
              rw [hrec] at h
              simp at h
              rw [← h.2]
              have ihr := ih hrec hrest
              simp [DisplayMgr.uninstallPlugin, hq, ihr]

/-- Releasing a freshly slot-placed instance restores the slot table: the
rollback in `installToSlot` is exact. -/
theorem installAt_rollback {p : PluginInst} :
    ∀ (slots : List (Option PluginInst)) (s : Nat) {slots1 : List (Option PluginInst)},
      DisplayMgr.installAt slots p s = some slots1 →
      some p ∉ slots →
      DisplayMgr.uninstallPlugin slots1 p = (true, slots) := by
  intro slots
  induction slots with
  | nil =>
      intro s slots1 h _
      simp [DisplayMgr.installAt] at h
  | cons o rest ih =>
      intro s slots1 h hnm
      have hrest : some p ∉ rest := fun hm => hnm (List.mem_cons_of_mem _ hm)
      cases s with
      | zero =>
          cases o with
          | none =>
              simp [DisplayMgr.installAt] at h
              rw [← h]
              simp [DisplayMgr.uninstallPlugin]
          | some q =>
              simp [DisplayMgr.installAt] at h
      | succ s0 =>
          unfold DisplayMgr.installAt at h
          cases hg : rest.get? s0 with
          | none => rw [List.get?_cons_succ, hg] at h; simp at h
          | some oo =>
              cases oo with
              | some q => rw [List.get?_cons_succ, hg] at h; simp at h
              | none =>
                  rw [List.get?_cons_succ, hg] at h
                  simp at h
                  have hrs : DisplayMgr.installAt rest p s0 = some (rest.set s0 (some p)) := by
                    unfold DisplayMgr.installAt
                    rw [hg]
                  have ihr := ih s0 hrs hrest
                  rw [← h]
                  cases o with
                  | none => simp [DisplayMgr.uninstallPlugin, ihr]
                  | some q =>
                      have hq : ¬(q = p) := by
                        intro hqe
                        exact hnm (by simp [hqe])
                      simp [DisplayMgr.uninstallPlugin, hq, ihr]

/-- A uid produced by `generateUID` is a 16-bit value distinct from the uid
of every currently installed instance. -/
theorem generateUID_fresh {rands : List Nat} {plugins : List PluginInst} {uid : Nat}
    (h : PluginMgr.generateUID rands plugins = some uid) :
    uid < 65536 ∧ ∀ p ∈ plugins, p.uid ≠ uid := by
  induction rands with
  | nil => simp [PluginMgr.generateUID] at h
  | cons r rest ih =>
      simp only [PluginMgr.generateUID] at h
      split at h
      · exact ih h
      · rename_i hany
        injection h with h
        subst h
        refine ⟨by omega, fun p hp he => ?_⟩
        exact hany (List.any_eq_true.mpr ⟨p, hp, by simp [he]⟩)

/-- `installWithUid` leaves the active list unchanged or appends exactly one
instance carrying the requested uid. -/
theorem installWithUid_plugins (appendOk : Bool) (nm : String) (uid : Nat)
    (slotId : Option Nat) (st : MgrState) :
    (PluginMgr.installWithUid appendOk nm uid slotId st).2.plugins = st.plugins ∨
    ∃ p : PluginInst, p.uid = uid ∧
      (PluginMgr.installWithUid appendOk nm uid slotId st).2.plugins = st.plugins ++ [p] := by
  cases hf : st.registry.find? (fun e => e.name == nm) with
  | none =>
      left
      simp [PluginMgr.installWithUid, hf]
  | some entry =>
      cases slotId with
      | none =>
          cases hauto : DisplayMgr.installAuto st.slots
              (⟨st.nextPid, entry.name, uid⟩ : PluginInst) with
          | none =>
              left
              simp [PluginMgr.installWithUid, hf, PluginMgr.installToAutoSlot, hauto]
          | some pr =>
              obtain ⟨i, slots1⟩ := pr
              cases appendOk with
              | true =>
                  right
                  exact ⟨⟨st.nextPid, entry.name, uid⟩, rfl, by
                    simp [PluginMgr.installWithUid, hf, PluginMgr.installToAutoSlot, hauto]⟩
              | false =>
                  left
                  simp [PluginMgr.installWithUid, hf, PluginMgr.installToAutoSlot, hauto]
      | some s =>
          cases hat : DisplayMgr.installAt st.slots
              (⟨st.nextPid, entry.name, uid⟩ : PluginInst) s with
          | none =>
              left
              simp [PluginMgr.installWithUid, hf, PluginMgr.installToSlot, hat]
          | some slots1 =>
              cases appendOk with
              | true =>
                  right
                  exact ⟨⟨st.nextPid, entry.name, uid⟩, rfl, by
                    simp [PluginMgr.installWithUid, hf, PluginMgr.installToSlot, hat]⟩
              | false =>
                  left
                  simp [PluginMgr.installWithUid, hf, PluginMgr.installToSlot, hat]

/-- A public install preserves pairwise-distinct uids: the generated uid is
fresh against the active list at the time of the call. -/
theorem install_preserves_uidsOk (rands : List Nat) (appendOk : Bool) (nm : String)
    (slotId : Option Nat) (st : MgrState) (h : UidsOk st.plugins) :
    UidsOk ((PluginMgr.install rands appendOk nm slotId st).2).plugins := by
  unfold PluginMgr.install
  cases hg : PluginMgr.generateUID rands st.plugins with
  | none => simpa using h
  | some uid =>
      have hfresh := (generateUID_fresh hg).2
      rcases installWithUid_plugins appendOk nm uid slotId st with heq | ⟨p, hpu, heq⟩
      · simpa [heq] using h
      · simp only [heq]
        unfold UidsOk at h ⊢
        rw [List.pairwise_append]
        refine ⟨h, List.pairwise_singleton _ _, fun a ha b hb => ?_⟩
        have hb1 : b = p := by simpa using hb
        subst hb1
        rw [hpu]
        exact hfresh a ha

/-- Any sequence of public installs preserves pairwise-distinct uids. -/
theorem runInstalls_preserves_uidsOk (reqs : List PluginMgr.InstallReq) :
    ∀ st : MgrState, UidsOk st.plugins → UidsOk (PluginMgr.runInstalls reqs st).plugins := by
  induction reqs with
  | nil =>
      intro st h
      simpa [PluginMgr.runInstalls] using h
  | cons r rest ih =>
      intro st h
      exact ih _ (install_preserves_uidsOk r.rands r.appendOk r.name r.slotId st h)

/-- C1: the persisted-load loop stops early.  On a document with non-empty
entries for slots 0 and 1 (both names registered, all slots free,
`MAX_SLOTS = 4`), `load()` installs only the slot-0 entry: the source
increments the running slot index and then breaks when
`slotId <= MAX_SLOTS` — true already after the first entry — so the slot-1
entry is never considered, contradicting the claim that all `MAX_SLOTS`
positions are considered. -/
theorem load_stops_after_first_entry_C1 :
    (PluginMgr.load 4 true true ⟨freshSt4, some doc4⟩).1.mgr.plugins = [⟨0, "Clock", 1⟩] ∧
    (PluginMgr.load 4 true true ⟨freshSt4, some doc4⟩).1.mgr.slots =
      [some ⟨0, "Clock", 1⟩, none, none, none] ∧
    (PluginMgr.load 4 true true ⟨freshSt4, some doc4⟩).1.mgr.enabledPids = [0] := by
  decide

/-- C2: the save/load round trip does not reproduce the saved assignments.
Saving a state with `Clock` (uid 1) in slot 0 and `Weather` (uid 2) in
slot 1 produces the expected document, but a subsequent `load()` into a
fresh table with the same registry restores only slot 0: slot 1 stays
empty because the load loop breaks after the first entry. -/
theorem save_load_roundtrip_fails_C2 :
    (PluginMgr.save 4 true ⟨savedSt4, none⟩).1.store = some doc4 ∧
    DisplayMgr.getPluginInSlot savedSt4.slots 1 = some weatherInst ∧
    (PluginMgr.load 4 true true
        ⟨freshSt4, (PluginMgr.save 4 true ⟨savedSt4, none⟩).1.store⟩).1.mgr.slots =
      [some ⟨0, "Clock", 1⟩, none, none, none] := by
  decide

/-- C3 counterexample: `registerPlugin` performs no duplicate-name check.
With `A` already registered and allocation succeeding, a second
`registerPlugin` for `A` reports success and appends a second entry — the
registry is changed, so the call is not a failing no-op. -/
theorem register_duplicate_appends_C3_cex :
    (PluginMgr.registerPlugin true true "A" stSingleA).1 = true ∧
    (PluginMgr.registerPlugin true true "A" stSingleA).2.registry = [⟨"A"⟩, ⟨"A"⟩] ∧
    (PluginMgr.registerPlugin true true "A" stSingleA).2 ≠ stSingleA := by
  decide

/-- C3 amended: `registerPlugin` fails as a no-op exactly when entry
allocation or the registry append fails; otherwise it appends the entry —
regardless of whether the name is already registered — and the
`findFirst`/`findNext` iteration yields names in registration order. -/
theorem register_appends_in_order_C3 (allocOk appendOk : Bool) (nm : String) (st : MgrState) :
    PluginMgr.registerPlugin allocOk appendOk nm st =
      (if allocOk && appendOk
       then (true, { st with registry := st.registry ++ [⟨nm⟩] })
       else (false, st)) ∧
    PluginMgr.iterNames (PluginMgr.registerPlugin allocOk appendOk nm st).2 =
      (if allocOk && appendOk
       then PluginMgr.iterNames st ++ [nm]
       else PluginMgr.iterNames st) ∧
    PluginMgr.findFirst st = (PluginMgr.iterNames st).get? 0 ∧
    (∀ i, PluginMgr.findNext st i = (PluginMgr.iterNames st).get? (i + 1)) := by
  refine ⟨?_, ?_, ?_, fun i => ?_⟩
  · cases allocOk <;> cases appendOk <;> simp [PluginMgr.registerPlugin]
  · cases allocOk <;> cases appendOk <;>
      simp [PluginMgr.registerPlugin, PluginMgr.iterNames]
  · cases h : st.registry <;> simp [PluginMgr.findFirst, PluginMgr.iterNames, h]
  · simp [PluginMgr.findNext, PluginMgr.iterNames, List.getElem?_map]

/-- C4: construction and placement are transactional.  In every `pidFresh`
state, an install that resolves its name but returns failure (auto placement
with no free slot, explicit slot occupied or out of range, or active-list
append failure) leaves the slot table, the active list, the web-interface
registrations and the registry exactly as they were: the constructed
instance has been destroyed, not leaked or partially installed. -/
theorem install_transactional_C4 (appendOk : Bool) (nm : String) (uid : Nat)
    (slotId : Option Nat) (st : MgrState) (hfresh : pidFresh st = true)
    (hfail : (PluginMgr.installWithUid appendOk nm uid slotId st).1 = none) :
    (PluginMgr.installWithUid appendOk nm uid slotId st).2.slots = st.slots ∧
    (PluginMgr.installWithUid appendOk nm uid slotId st).2.plugins = st.plugins ∧
    (PluginMgr.installWithUid appendOk nm uid slotId st).2.webIfs = st.webIfs ∧
    (PluginMgr.installWithUid appendOk nm uid slotId st).2.registry = st.registry := by
  cases hf : st.registry.find? (fun e => e.name == nm) with
  | none =>
      simp [PluginMgr.installWithUid, hf]
  | some entry =>
      have hnm : some (⟨st.nextPid, entry.name, uid⟩ : PluginInst) ∉ st.slots := by
        intro hm
        have := pidFresh_slot_lt hfresh hm
        simp at this
      cases slotId with
      | none =>
          cases hauto : DisplayMgr.installAuto st.slots
              (⟨st.nextPid, entry.name, uid⟩ : PluginInst) with
          | none =>
              simp [PluginMgr.installWithUid, hf, PluginMgr.installToAutoSlot, hauto]
          | some pr =>
              obtain ⟨i, slots1⟩ := pr
              cases appendOk with
              | true =>
                  exfalso
                  simp [PluginMgr.installWithUid, hf, PluginMgr.installToAutoSlot, hauto]
                    at hfail
              | false =>
                  have hro := installAuto_rollback hauto hnm
                  simp [PluginMgr.installWithUid, hf, PluginMgr.installToAutoSlot, hauto, hro]
      | some s =>
          cases hat : DisplayMgr.installAt st.slots
              (⟨st.nextPid, entry.name, uid⟩ : PluginInst) s with
          | none =>
              simp [PluginMgr.installWithUid, hf, PluginMgr.installToSlot, hat]
          | some slots1 =>
              cases appendOk with
              | true =>
                  exfalso
                  simp [PluginMgr.installWithUid, hf, PluginMgr.installToSlot, hat] at hfail
              | false =>
                  have hro := installAt_rollback st.slots s hat hnm
                  simp [PluginMgr.installWithUid, hf, PluginMgr.installToSlot, hat, hro]

/-- Witness for C4: installing `Weather` into occupied slot 0 of a concrete
`pidFresh` state fails and leaves the state's core components unchanged. -/
theorem install_transactional_C4_witness :
    pidFresh savedSt4 = true ∧
    (PluginMgr.installWithUid true "Weather" 9 (some 0) savedSt4).1 = none ∧
    ((PluginMgr.installWithUid true "Weather" 9 (some 0) savedSt4).2.slots = savedSt4.slots ∧
     (PluginMgr.installWithUid true "Weather" 9 (some 0) savedSt4).2.plugins =
       savedSt4.plugins ∧
     (PluginMgr.installWithUid true "Weather" 9 (some 0) savedSt4).2.webIfs =
       savedSt4.webIfs ∧
     (PluginMgr.installWithUid true "Weather" 9 (some 0) savedSt4).2.registry =
       savedSt4.registry) :=
  ⟨by decide, by decide,
   install_transactional_C4 true "Weather" 9 (some 0) savedSt4 (by decide) (by decide)⟩

/-- C5: `uninstall` fails without any state change when the instance is not
tracked in the active list, and likewise when the rendering collaborator
refuses to release the slot; only when the collaborator consents are the
web-interface registration and the active-list entry removed. -/
theorem uninstall_no_partial_teardown_C5 (p : PluginInst) (st : MgrState) :
    (st.plugins.contains p = false → PluginMgr.uninstall (some p) st = (false, st)) ∧
    (st.plugins.contains p = true →
      (DisplayMgr.uninstallPlugin st.slots p).1 = false →
      PluginMgr.uninstall (some p) st = (false, st)) ∧
    (st.plugins.contains p = true →
      (DisplayMgr.uninstallPlugin st.slots p).1 = true →
      PluginMgr.uninstall (some p) st =
        (true, { st with slots := (DisplayMgr.uninstallPlugin st.slots p).2,
                         plugins := st.plugins.erase p,
                         webIfs := st.webIfs.erase p.pid })) := by
  refine ⟨fun h1 => ?_, fun h1 h2 => ?_, fun h1 h2 => ?_⟩
  · unfold PluginMgr.uninstall
    dsimp only
    rw [h1]
    simp
  · unfold PluginMgr.uninstall
    dsimp only
    rw [h1]
    simp [h2]
  · unfold PluginMgr.uninstall
    dsimp only
    rw [h1]
    simp [h2]

/-- Witness for C5: concrete refusal and consent runs. -/
theorem uninstall_no_partial_teardown_C5_witness :
    PluginMgr.uninstall (some clockInst) stRefusing = (false, stRefusing) ∧
    PluginMgr.uninstall (some clockInst) stConsenting =
      (true, { stConsenting with slots := [none], plugins := [], webIfs := [] }) :=
  ⟨(uninstall_no_partial_teardown_C5 clockInst stRefusing).2.1 (by decide) (by decide),
   ((uninstall_no_partial_teardown_C5 clockInst stConsenting).2.2
      (by decide) (by decide)).trans (by decide)⟩

/-- C6: along any sequence of public installs without intervening
uninstalls, no two currently-installed instances share a uid; and every uid
`generateUID` yields is a 16-bit value distinct from the uid of every
instance installed at the time of the call. -/
theorem uid_uniqueness_C6 (reqs : List PluginMgr.InstallReq) (st : MgrState)
    (h : UidsOk st.plugins) :
    UidsOk (PluginMgr.runInstalls reqs st).plugins ∧
    ∀ rands uid, PluginMgr.generateUID rands st.plugins = some uid →
      uid < 65536 ∧ ∀ p ∈ st.plugins, p.uid ≠ uid :=
  ⟨runInstalls_preserves_uidsOk reqs st h, fun _ _ hg => generateUID_fresh hg⟩

/-- Witness for C6: two auto installs into the fresh state. -/
theorem uid_uniqueness_C6_witness :
    UidsOk (PluginMgr.runInstalls
        [⟨[7], true, "Clock", none⟩, ⟨[7, 9], true, "Weather", none⟩] freshSt4).plugins ∧
    ∀ rands uid, PluginMgr.generateUID rands freshSt4.plugins = some uid →
      uid < 65536 ∧ ∀ p ∈ freshSt4.plugins, p.uid ≠ uid :=
  uid_uniqueness_C6 [⟨[7], true, "Clock", none⟩, ⟨[7, 9], true, "Weather", none⟩]
    freshSt4 (by simp [UidsOk, freshSt4])

/-- C7: in the Init state, `process` requests no transition while no fresh
mode-select reading is available; with a reading available it requests
AccessPoint setup when the configure signal is asserted and Connecting
otherwise, and these are the only transitions it ever requests. -/
theorem init_process_transitions_C7 (btn : ButtonInput) :
    (btn.isUpdated = false → InitState.process btn = none) ∧
    (btn.isUpdated = true → btn.isPressed = true →
      InitState.process btn = some SysState.accessPointSetup) ∧
    (btn.isUpdated = true → btn.isPressed = false →
      InitState.process btn = some SysState.connecting) ∧
    (∀ s, InitState.process btn = some s →
      s = SysState.accessPointSetup ∨ s = SysState.connecting) := by
  obtain ⟨u, p⟩ := btn
  cases u <;> cases p <;> simp [InitState.process]

/-- Witness for C7: the three concrete input situations. -/
theorem init_process_transitions_C7_witness :
    InitState.process ⟨false, false⟩ = none ∧
    InitState.process ⟨true, true⟩ = some SysState.accessPointSetup ∧
    InitState.process ⟨true, false⟩ = some SysState.connecting :=
  ⟨(init_process_transitions_C7 ⟨false, false⟩).1 rfl,
   (init_process_transitions_C7 ⟨true, true⟩).2.1 rfl rfl,
   (init_process_transitions_C7 ⟨true, false⟩).2.2.1 rfl rfl⟩

/-- C8: on every exit path, `load()` and `save()` leave the persistence
store released: a failing open produces no close, and whenever the open
succeeds exactly one close follows before the call returns — independent of
parse outcomes and of the per-entry install results. -/
theorem store_scoped_release_C8 (maxSlots : Nat) (openOk appendOk : Bool) (full : FullState) :
    (PluginMgr.load maxSlots openOk appendOk full).2 =
      (if openOk then [StoreEv.opened true, StoreEv.closed] else [StoreEv.opened false]) ∧
    (PluginMgr.save maxSlots openOk full).2 =
      (if openOk then [StoreEv.opened true, StoreEv.closed] else [StoreEv.opened false]) := by
  cases openOk <;> cases h : full.store <;> simp [PluginMgr.load, PluginMgr.save, h]

/-- C9: the REST helpers `toUInt8` and `toUInt16` report failure on every
input — the success flag is initialized `false` and never set — even though
the output parameter is always assigned a converted value (their guard
condition is a disjunction that every integer satisfies). -/
theorem toUInt_conversions_report_failure_C9 (tmp : Int) :
    (RestApi.toUInt8 tmp).1 = false ∧ (RestApi.toUInt16 tmp).1 = false ∧
    (RestApi.toUInt8 tmp).2.isSome = true ∧ (RestApi.toUInt16 tmp).2.isSome = true := by
  refine ⟨rfl, rfl, ?_, ?_⟩ <;>
    · simp only [RestApi.toUInt8, RestApi.toUInt16]
      rw [if_pos (by omega)]
      rfl

/-- C10: `save()` never mutates the core state: the slot table, the active
plugin list, the registry (as well as the web-interface and enabled sets and
the allocation counter) are unchanged, and the only component it may write
is the persistence store's slot-assignment value. -/
theorem save_frame_C10 (maxSlots : Nat) (openOk : Bool) (full : FullState) :
    ((PluginMgr.save maxSlots openOk full).1).mgr = full.mgr ∧
    ((PluginMgr.save maxSlots openOk full).1).store =
      (if openOk then some (PluginMgr.saveDoc maxSlots full.mgr) else full.store) := by
  cases openOk <;> simp [PluginMgr.save]

end PixelIt
